import Mathlib

/-!
# Verification of the uhh-bap-v2 synchronization core

Shallow embedding of the core subsystems of the repository:
* the attendance Transaction Queue (`src/unnamed/part_008`, the
  attendance-manager variant with a storage bound),
* the Push Scheduler (`handleScheduledPushToUHH` in
  `src/src/app/uhh-connectivity/page.tsx`),
* the Session Authenticator (`testUhhConnection` in the same file),
* the request Relay (`src/src/app/api/uhh-proxy/route.ts`, with the
  sibling variant in `src/unnamed/part_004`).

Conventions of the embedding:
* `transaction_time` is the epoch-millisecond value that the source obtains
  via `new Date(t.transaction_time).getTime()`; the source only ever compares
  these numbers, so the ISO string is embedded as the integer it denotes.
* `localStorage` writes are made explicit: each mutating queue operation
  returns the new stored list together with the data it logs/emits
  (`window.dispatchEvent` of the change notification becomes a boolean
  "event emitted" component).
* The generated id (`Date.now() + random suffix`) and the generated
  timestamp of a new transaction are inputs of the embedded `enqueue`,
  since the claims quantify over them.
-/

/-! ## Transaction Queue (src/unnamed/part_008, lines 113-262) -/

inductive TransactionType where
  | checkIn
  | checkOut
deriving DecidableEq, Repr

inductive UploadStatus where
  | not_uploaded
  | uploaded
deriving DecidableEq, Repr

structure AttendanceTransaction where
  id : String
  employee_id : String
  transaction_type : TransactionType
  transaction_time : Int
  source_type : String
  device_id : String
  status : UploadStatus
deriving DecidableEq, Repr

/-- `MAX_TRANSACTIONS_IN_STORAGE = 5000` from part_008 line 131. -/
def MAX_TRANSACTIONS_IN_STORAGE : Nat := 5000

/-- The comparator `(a, b) => new Date(b.transaction_time).getTime() -
new Date(a.transaction_time).getTime()` sorts newest-first.  JavaScript's
`Array.prototype.sort` is stable, so it is embedded as a stable
insertion sort with respect to "a is at least as new as b". -/
def newerEq (a b : AttendanceTransaction) : Prop :=
  b.transaction_time ≤ a.transaction_time

instance : DecidableRel newerEq := fun a b =>
  inferInstanceAs (Decidable (b.transaction_time ≤ a.transaction_time))

instance : IsTotal AttendanceTransaction newerEq :=
  ⟨fun a b => (le_total b.transaction_time a.transaction_time).imp id id⟩

instance : IsTrans AttendanceTransaction newerEq :=
  ⟨fun _ _ _ h h' => le_trans h' h⟩

/-- The `.sort(...)` call of `addAttendanceTransaction`: stable sort by
`transaction_time` descending. -/
def sortByTimeDesc (l : List AttendanceTransaction) : List AttendanceTransaction :=
  List.insertionSort newerEq l

/-- `addAttendanceTransaction` (part_008 lines 152-173): prepend the new
transaction, re-sort by time descending, truncate to the storage bound,
write back, dispatch `attendanceTransactionsUpdated`.  Returns the stored
list and whether the change event was dispatched. -/
def addAttendanceTransaction (newTransaction : AttendanceTransaction)
    (currentTransactions : List AttendanceTransaction) :
    List AttendanceTransaction × Bool :=
  let updatedTransactions :=
    (sortByTimeDesc (newTransaction :: currentTransactions)).take
      MAX_TRANSACTIONS_IN_STORAGE
  (updatedTransactions, true)

/-- The body of the `.map` callback of `updateAttendanceTransactionStatus`
(part_008 lines 186-192): flip `status` when the transaction's id occurs in
`transactionIds`, otherwise return the transaction unchanged. -/
def applyStatus (transactionIds : List String) (newStatus : UploadStatus)
    (transaction : AttendanceTransaction) : AttendanceTransaction :=
  if transaction.id ∈ transactionIds then { transaction with status := newStatus }
  else transaction

/-- `updateAttendanceTransactionStatus` (part_008 lines 180-204): early
return when `transactionIds` is empty; map over the stored list flipping
`status` for transactions whose id occurs in `transactionIds`, counting the
matches; write back and dispatch the change event only when the count is
positive.  Returns (stored list, `updatedCount`, event dispatched). -/
def updateAttendanceTransactionStatus (transactionIds : List String)
    (newStatus : UploadStatus) (currentTransactions : List AttendanceTransaction) :
    List AttendanceTransaction × Nat × Bool :=
  if transactionIds = [] then (currentTransactions, 0, false)
  else
    let updated := currentTransactions.map (applyStatus transactionIds newStatus)
    let updatedCount :=
      (currentTransactions.filter fun transaction =>
        transaction.id ∈ transactionIds).length
    if 0 < updatedCount then (updated, updatedCount, true)
    else (currentTransactions, updatedCount, false)

/-- `clearAttendanceTransactions` (part_008 lines 210-218): remove the
storage key and dispatch the change event. -/
def clearAttendanceTransactions (_currentTransactions : List AttendanceTransaction) :
    List AttendanceTransaction × Bool :=
  ([], true)

/-! ### Small sanity examples (concrete evaluation of the queue model) -/

def txSampleA : AttendanceTransaction :=
  { id := "a", employee_id := "EMP001", transaction_type := .checkIn
    transaction_time := 100, source_type := "biometric"
    device_id := "ZK-Device-01", status := .not_uploaded }

def txSampleB : AttendanceTransaction :=
  { id := "b", employee_id := "EMP002", transaction_type := .checkOut
    transaction_time := 200, source_type := "biometric"
    device_id := "ZK-Device-01", status := .uploaded }

example :
    (updateAttendanceTransactionStatus ["a"] .uploaded [txSampleA, txSampleB]).2.1 = 1 := by
  decide

example :
    (updateAttendanceTransactionStatus ["zzz"] .uploaded [txSampleA, txSampleB]).2.2 = false := by
  decide

example :
    (addAttendanceTransaction txSampleB [txSampleA]).1 = [txSampleB, txSampleA] := by
  decide

/-! ## Push Scheduler (`handleScheduledPushToUHH`,
src/src/app/uhh-connectivity/page.tsx lines 388-507)

The environment visible to one push cycle is the sequence of results the
successive proxy `fetch` attempts would observe; the retry loop performs at
most `MAX_RETRIES` attempts and stops at the first logical success. -/

/-- `MAX_RETRIES = 2` from page.tsx line 450. -/
def MAX_RETRIES : Nat := 2

/-- The `responseBody.result` value of one push attempt, shaped after the
success test on page.tsx line 467:
`odooResult === true || odooResult.success || processed_count > 0`. -/
inductive OdooPushResult where
  | jsTrue
  | obj (success : Bool) (processed_count : Option Int)
deriving DecidableEq, Repr

/-- What one `fetch("/api/uhh-proxy", ...)` attempt yields to the loop body:
a thrown client error (the `catch` branch), a non-ok HTTP response (the
`else` branch at line 480), or an ok response with an optional `result`. -/
inductive AttemptResult where
  | clientError
  | httpError
  | okBody (result : Option OdooPushResult)
deriving DecidableEq, Repr

/-- The logical-success test of page.tsx line 467, applied to one attempt:
requires `proxyResponse.ok` and a truthy `result` carrying the success
marker (`=== true`, truthy `success`, or numeric `processed_count > 0`). -/
def isLogicalSuccess : AttemptResult → Bool
  | .okBody (some .jsTrue) => true
  | .okBody (some (.obj success pc)) =>
      success || (match pc with | some n => decide (0 < n) | none => false)
  | _ => false

/-- The retry loop (page.tsx lines 451-505): one iteration per attempt, at
the first logically successful attempt call
`updateAttendanceTransactionStatus(batchIds, "uploaded")` and break; if no
attempt succeeds the queue is left untouched.  Returns the persisted queue
and whether the cycle succeeded. -/
def runPushAttempts (batchIds : List String)
    (queue : List AttendanceTransaction) :
    List AttemptResult → List AttendanceTransaction × Bool
  | [] => (queue, false)
  | r :: rs =>
      if isLogicalSuccess r then
        ((updateAttendanceTransactionStatus batchIds .uploaded queue).1, true)
      else runPushAttempts batchIds queue rs

inductive PushOutcome where
  | noSession
  | alreadyRunning
  | nothingToDo
  | completed (success : Bool)
deriving DecidableEq, Repr

structure PushInvocationResult where
  queue : List AttendanceTransaction
  outcome : PushOutcome
  /-- The batches of transaction ids handed to the proxy by this
  invocation (empty when the invocation returned before submitting). -/
  submitted : List (List String)
  isPushingAfter : Bool
deriving DecidableEq, Repr

/-- The batch selection of page.tsx line 407:
`allTransactions.filter(t => t.status === 'not_uploaded')`. -/
def notUploadedTransactions (queue : List AttendanceTransaction) :
    List AttendanceTransaction :=
  queue.filter fun t => t.status = .not_uploaded

/-- `batchToPush = notUploadedTransactions.slice(0, batchSize)`
(page.tsx line 417). -/
def batchToPush (queue : List AttendanceTransaction) (batchSize : Nat) :
    List AttendanceTransaction :=
  (notUploadedTransactions queue).take batchSize

/-- `batchIds = batchToPush.map(t => t.id)` (page.tsx line 418). -/
def batchIds (queue : List AttendanceTransaction) (batchSize : Nat) :
    List String :=
  (batchToPush queue batchSize).map fun t => t.id

/-- `handleScheduledPushToUHH` (page.tsx lines 388-507) over the persisted
queue.  Guards: no active session (line 389), busy flag `isPushing`
(line 395), empty selection (line 409).  Otherwise: select the first
`batchSize` transactions with status `not_uploaded` (lines 406-418), submit
through the proxy with up to `MAX_RETRIES` attempts, and on logical success
mark the batch uploaded (line 469). -/
def handleScheduledPushToUHH (hasActiveSession : Bool) (isPushing : Bool)
    (queue : List AttendanceTransaction) (batchSize : Nat)
    (responses : List AttemptResult) : PushInvocationResult :=
  if !hasActiveSession then
    { queue := queue, outcome := .noSession, submitted := [],
      isPushingAfter := isPushing }
  else if isPushing then
    { queue := queue, outcome := .alreadyRunning, submitted := [],
      isPushingAfter := isPushing }
  else
    if notUploadedTransactions queue = [] then
      { queue := queue, outcome := .nothingToDo, submitted := [],
        isPushingAfter := false }
    else
      let run := runPushAttempts (batchIds queue batchSize) queue
        (responses.take MAX_RETRIES)
      { queue := run.1, outcome := .completed run.2,
        submitted := [batchIds queue batchSize], isPushingAfter := false }

/-- Number of transactions a cycle newly marked uploaded: positions whose
stored status went from `not_uploaded` to `uploaded`. -/
def newlyUploadedCount (old new : List AttendanceTransaction) : Nat :=
  ((old.zip new).filter fun p =>
    p.1.status = .not_uploaded ∧ p.2.status = .uploaded).length

example :
    (handleScheduledPushToUHH true false [txSampleA, txSampleB] 1
      [.okBody (some .jsTrue), .clientError]).outcome = .completed true := by
  decide

example :
    newlyUploadedCount [txSampleA, txSampleB]
      (handleScheduledPushToUHH true false [txSampleA, txSampleB] 1
        [.okBody (some .jsTrue)]).queue = 1 := by
  decide

example :
    (handleScheduledPushToUHH true false [txSampleA] 1
      [.httpError, .clientError]).queue = [txSampleA] := by
  decide

/-! ## Session Authenticator (`testUhhConnection`,
src/src/app/uhh-connectivity/page.tsx lines 96-259)

The proxy's `debug_headers` map is embedded as an association list from
header names to values; a value may be a single string or an array of
strings (page.tsx line 164 handles both).  JavaScript truthiness matters in
two places: the `||` between the two casings of the header lookup and the
`if (setCookieHeader)` guard, where an empty string is falsy but an array
(even empty) is truthy. -/

inductive HeaderValue where
  | str (s : String)
  | arr (l : List String)
deriving DecidableEq, Repr

abbrev HeaderMap := List (String × HeaderValue)

/-- Exact-key lookup `headers?.[k]`. -/
def getHeaderRaw (headers : HeaderMap) (k : String) : Option HeaderValue :=
  (headers.find? fun p => p.1 = k).map (·.2)

/-- JavaScript truthiness of an optional header value: `undefined` and the
empty string are falsy; every array is truthy. -/
def isTruthyHV : Option HeaderValue → Bool
  | none => false
  | some (.str s) => s ≠ ""
  | some (.arr _) => true

/-- JavaScript `a || b`. -/
def jsOrHV (a b : Option HeaderValue) : Option HeaderValue :=
  if isTruthyHV a then a else b

/-- The regex match `cookieStr.match(/session_id=([^;]+)/)` over the
characters of one cookie string: find the leftmost position where
`session_id=` is followed by at least one character other than `;` and
capture the maximal such run. -/
def sessionIdCapture : List Char → Option String
  | [] => none
  | c :: rest =>
      if List.isPrefixOf ("session_id=".data) (c :: rest) then
        let v := ((c :: rest).drop 11).takeWhile (fun ch => ch ≠ ';')
        if v = [] then sessionIdCapture rest else some v.asString
      else sessionIdCapture rest

/-- The loop of page.tsx lines 165-171: scan the cookie strings in order,
take the first regex capture that is neither the literal `"false"` nor
empty, and stop there. -/
def extractSessionIdFromCookies : List String → Option String
  | [] => none
  | s :: rest =>
      match sessionIdCapture s.data with
      | some v =>
          if v ≠ "false" ∧ v ≠ "" then some v
          else extractSessionIdFromCookies rest
      | none => extractSessionIdFromCookies rest

/-- Lines 159-172: look the `Set-Cookie` header up under both casings,
normalize a single string to a one-element array, and scan. -/
def sessionIdFromHeader (headers : HeaderMap) : Option String :=
  let setCookieHeader :=
    jsOrHV (getHeaderRaw headers "set-cookie") (getHeaderRaw headers "Set-Cookie")
  if isTruthyHV setCookieHeader then
    match setCookieHeader with
    | some (.str s) => extractSessionIdFromCookies [s]
    | some (.arr l) => extractSessionIdFromCookies l
    | none => none
  else none

/-- The part of the JSON body of the proxy response that
`testUhhConnection` inspects. -/
structure AuthResult where
  session_id : Option String
deriving DecidableEq, Repr

structure AuthResponseBody where
  debug_headers : Option HeaderMap
  error : Option String
  result : Option AuthResult
deriving DecidableEq, Repr

/-- What the single `fetch("/api/uhh-proxy", ...)` of `testUhhConnection`
yields: a thrown client-side error (the outer `catch`), a body that fails
JSON parsing (line 134), or a parsed body with the `proxyResponse.ok`
flag. -/
inductive ProxyFetchOutcome where
  | clientThrow
  | respParseFail
  | resp (ok : Bool) (body : AuthResponseBody)
deriving DecidableEq, Repr

/-- The distinguishable outcomes of `testUhhConnection`: each constructor is
one `return` site of the source (parse failure line 137, proxy error
line 150, Odoo rejection line 184, success via header line 209, success via
body line 234, missing session token line 245, client error line 257). -/
inductive TestOutcome where
  | parseFailure
  | proxyError
  | rejected
  | successViaHeader (token : String)
  | successViaBody (token : String)
  | missingSessionToken
  | clientError
deriving DecidableEq, Repr

/-- `testUhhConnection` (page.tsx lines 96-259) as a function of the proxy
fetch outcome.  The second component lists the `localStorage` keys the call
writes (`uhh_session_id` and `uhh_user_details` in the two success branches,
nothing anywhere else). -/
def testUhhConnection : ProxyFetchOutcome → TestOutcome × List String
  | .clientThrow => (.clientError, [])
  | .respParseFail => (.parseFailure, [])
  | .resp ok body =>
      if !ok then (.proxyError, [])
      else
        let headers := body.debug_headers.getD []
        let sessionIdHdr := sessionIdFromHeader headers
        if body.error.isSome then (.rejected, [])
        else
          match sessionIdHdr with
          | some t => (.successViaHeader t, ["uhh_session_id", "uhh_user_details"])
          | none =>
              match body.result with
              | some r =>
                  match r.session_id with
                  | some s =>
                      if s ≠ "" then
                        (.successViaBody s, ["uhh_session_id", "uhh_user_details"])
                      else (.missingSessionToken, [])
                  | none => (.missingSessionToken, [])
              | none => (.missingSessionToken, [])

example :
    sessionIdFromHeader [("set-cookie",
      .str "session_id=false; Path=/"), ("x", .str "y")] = none := by
  decide

example :
    sessionIdFromHeader [("set-cookie",
      .arr ["session_id=false; Path=/", "session_id=abc123; HttpOnly"])] =
      some "abc123" := by
  decide

example :
    testUhhConnection (.resp true
      { debug_headers := some [("set-cookie", .str "session_id=tok99; Path=/")],
        error := none,
        result := some { session_id := some "bodyTok" } }) =
      (.successViaHeader "tok99", ["uhh_session_id", "uhh_user_details"]) := by
  decide

example :
    testUhhConnection (.resp true
      { debug_headers := some [], error := none, result := some { session_id := none } }) =
      (.missingSessionToken, []) := by
  decide

/-! ## Relay (`POST`, src/src/app/api/uhh-proxy/route.ts, and the sibling
variant of the same handler in src/unnamed/part_004)

The upstream (Odoo) response is embedded with the fields the handler
inspects; `parsedBody` stands for what `odooResponse.json()` would yield if
it were invoked, so that not invoking it is visible as independence from
this field. -/

structure UpstreamResponse where
  status : Nat
  statusText : String
  contentType : Option String
  bodyText : String
  parsedBody : Option String
  headers : List (String × String)
deriving DecidableEq, Repr

/-- `s.includes(t)` on strings. -/
def strIncludes (s t : String) : Bool :=
  decide (t.data <:+: s.data)

/-- The guard of route.ts line 40: `contentType &&
contentType.includes("application/json")` (a missing header is `null`,
hence falsy). -/
def contentTypeIsJson : Option String → Bool
  | none => false
  | some ct => strIncludes ct "application/json"

/-- The distinguishable responses of the route handler, one constructor per
`return` site: the two 400 validations, the forwarded JSON body (with the
injected `debug_headers`), the structured non-JSON error (route.ts
lines 55-62), and the catch-all 500. -/
inductive RelayResponse where
  | badRequest (msg : String)
  | jsonForwarded (status : Nat) (parsed : Option String)
      (debugHeaders : List (String × String))
  | nonJsonError (status : Nat) (errorMsg : String) (details : String)
      (debugHeaders : List (String × String))
  | proxyFailure (debugHeaders : List (String × String))
deriving DecidableEq, Repr

/-- `s.startsWith(t)` on strings. -/
def strStartsWith (s t : String) : Bool :=
  List.isPrefixOf t.data s.data

/-- `POST` of src/src/app/api/uhh-proxy/route.ts as a function of the
request fields and of the upstream response (`none` when the `fetch`
throws).  Validation: both fields present and `targetUrl` starting with
`http://` or `https://`.  JSON branch: forward status and parsed body with
`debug_headers` injected.  Non-JSON branch (lines 50-63): structured error
with the upstream status, a 500-character snippet of the raw text, and the
captured headers. -/
def relayPOST (targetUrl : String) (hasPayload : Bool)
    (upstream : Option UpstreamResponse) : RelayResponse :=
  if targetUrl = "" ∨ !hasPayload then
    .badRequest "Missing targetUrl or payload for proxy"
  else if !(strStartsWith targetUrl "http://") && !(strStartsWith targetUrl "https://") then
    .badRequest "Invalid targetUrl format. Must start with http:// or https://"
  else
    match upstream with
    | none => .proxyFailure []
    | some u =>
        if contentTypeIsJson u.contentType then
          .jsonForwarded u.status u.parsedBody u.headers
        else
          .nonJsonError u.status
            ("Odoo server responded with non-JSON content. Status: " ++
              toString u.status ++ " " ++ u.statusText ++ ".")
            (u.bodyText.data.take 500).asString
            u.headers

structure OutboundRequest where
  url : String
  httpMethod : String
  headers : List (String × String)
deriving DecidableEq, Repr

/-- The outbound `fetch(targetUrl, ...)` built by
src/src/app/api/uhh-proxy/route.ts lines 20-29: the header object is the
literal `{ 'Content-Type': 'application/json' }`; the incoming request's
`Cookie` header (passed here so that the dependence can be stated) is
never consulted. -/
def proxyOutboundRequest (targetUrl : String)
    (_incomingCookie : Option String) : OutboundRequest :=
  { url := targetUrl, httpMethod := "POST",
    headers := [("Content-Type", "application/json")] }

/-- The outbound `fetch(targetUrl, ...)` built by the sibling handler in
src/unnamed/part_004 lines 30-47: start from
`{ 'Content-Type': 'application/json' }` and add
`Cookie: request.headers.get('cookie')` when that value is truthy. -/
def proxyOutboundRequestV2 (targetUrl : String)
    (incomingCookie : Option String) : OutboundRequest :=
  let base := [("Content-Type", "application/json")]
  { url := targetUrl, httpMethod := "POST",
    headers :=
      match incomingCookie with
      | some c => if c ≠ "" then base ++ [("Cookie", c)] else base
      | none => base }

example :
    relayPOST "http://odoo.example/web" true
      (some { status := 502, statusText := "Bad Gateway",
              contentType := some "text/html",
              bodyText := "<html>oops</html>", parsedBody := none,
              headers := [("server", "nginx")] }) =
    .nonJsonError 502
      "Odoo server responded with non-JSON content. Status: 502 Bad Gateway."
      "<html>oops</html>" [("server", "nginx")] := by
  decide

example :
    (proxyOutboundRequest "http://odoo.example" (some "session_id=abc")).headers =
      [("Content-Type", "application/json")] := by
  decide

/-! ## Helper lemmas -/

theorem applyStatus_id (ids : List String) (s : UploadStatus)
    (t : AttendanceTransaction) : (applyStatus ids s t).id = t.id := by
  unfold applyStatus; split <;> rfl

theorem applyStatus_employee (ids : List String) (s : UploadStatus)
    (t : AttendanceTransaction) :
    (applyStatus ids s t).employee_id = t.employee_id := by
  unfold applyStatus; split <;> rfl

theorem applyStatus_type (ids : List String) (s : UploadStatus)
    (t : AttendanceTransaction) :
    (applyStatus ids s t).transaction_type = t.transaction_type := by
  unfold applyStatus; split <;> rfl

theorem applyStatus_time (ids : List String) (s : UploadStatus)
    (t : AttendanceTransaction) :
    (applyStatus ids s t).transaction_time = t.transaction_time := by
  unfold applyStatus; split <;> rfl

theorem applyStatus_source (ids : List String) (s : UploadStatus)
    (t : AttendanceTransaction) :
    (applyStatus ids s t).source_type = t.source_type := by
  unfold applyStatus; split <;> rfl

theorem applyStatus_device (ids : List String) (s : UploadStatus)
    (t : AttendanceTransaction) :
    (applyStatus ids s t).device_id = t.device_id := by
  unfold applyStatus; split <;> rfl

theorem applyStatus_idem (ids : List String) (s : UploadStatus)
    (t : AttendanceTransaction) :
    applyStatus ids s (applyStatus ids s t) = applyStatus ids s t := by
  unfold applyStatus
  by_cases h : t.id ∈ ids <;> simp [h]

theorem zip_self_map {α : Type} (f : α → α) (l : List α) :
    l.zip (l.map f) = l.map fun a => (a, f a) := by
  induction l with
  | nil => rfl
  | cons a l ih => simp [ih]

/-- Claim C7: with the busy flag `isPushing` set, a push invocation returns
`alreadyRunning` immediately: the persisted queue is unchanged, no batch is
selected or submitted, and the flag is left as it was. -/
theorem push_already_running_guard (queue : List AttendanceTransaction)
    (batchSize : Nat) (responses : List AttemptResult) :
    handleScheduledPushToUHH true true queue batchSize responses =
      { queue := queue, outcome := .alreadyRunning, submitted := [],
        isPushingAfter := true } := by
  rfl

/-- Claim C10: `updateAttendanceTransactionStatus` preserves the number of
stored transactions and their order, and for each transaction every field
other than `status` (id, employee id, type, timestamp, source, device); it
never inserts, removes, or reorders records. -/
theorem updateStatus_frame (transactionIds : List String)
    (newStatus : UploadStatus) (q : List AttendanceTransaction) :
    (updateAttendanceTransactionStatus transactionIds newStatus q).1.length = q.length ∧
    List.Forall₂ (fun a b => b.id = a.id ∧ b.employee_id = a.employee_id ∧
        b.transaction_type = a.transaction_type ∧
        b.transaction_time = a.transaction_time ∧
        b.source_type = a.source_type ∧ b.device_id = a.device_id)
      q (updateAttendanceTransactionStatus transactionIds newStatus q).1 := by
  unfold updateAttendanceTransactionStatus
  split
  · exact ⟨rfl, List.forall₂_same.mpr fun t _ => ⟨rfl, rfl, rfl, rfl, rfl, rfl⟩⟩
  · dsimp only
    split
    · refine ⟨by simp, ?_⟩
      refine List.forall₂_map_right_iff.mpr (List.forall₂_same.mpr fun t _ => ?_)
      exact ⟨applyStatus_id _ _ t, applyStatus_employee _ _ t, applyStatus_type _ _ t,
        applyStatus_time _ _ t, applyStatus_source _ _ t, applyStatus_device _ _ t⟩
    · exact ⟨rfl, List.forall₂_same.mpr fun t _ => ⟨rfl, rfl, rfl, rfl, rfl, rfl⟩⟩

theorem filter_applyStatus_length (ids : List String) (s : UploadStatus)
    (q : List AttendanceTransaction) :
    ((q.map (applyStatus ids s)).filter fun t => t.id ∈ ids).length =
      (q.filter fun t => t.id ∈ ids).length := by
  induction q with
  | nil => rfl
  | cons t q ih =>
      simp only [List.map_cons, List.filter_cons, applyStatus_id]
      split
      · simp [ih]
      · exact ih

theorem map_applyStatus_idem (ids : List String) (s : UploadStatus)
    (q : List AttendanceTransaction) :
    (q.map (applyStatus ids s)).map (applyStatus ids s) =
      q.map (applyStatus ids s) := by
  induction q with
  | nil => rfl
  | cons t q ih => simp [applyStatus_idem, ih]

/-- Claim C1 counterexample: on a one-element queue holding the transaction
with id `a`, applying `updateAttendanceTransactionStatus ["a"] uploaded`
twice leaves the state of the first call, but the second call reports
`updatedCount = 1`, not `0`: the source counts *matching* ids, not *newly
changed* records. -/
theorem updateStatus_second_count_ce :
    (updateAttendanceTransactionStatus ["a"] .uploaded
        (updateAttendanceTransactionStatus ["a"] .uploaded [txSampleA]).1).1 =
      (updateAttendanceTransactionStatus ["a"] .uploaded [txSampleA]).1 ∧
    (updateAttendanceTransactionStatus ["a"] .uploaded
        (updateAttendanceTransactionStatus ["a"] .uploaded [txSampleA]).1).2.1 = 1 ∧
    (updateAttendanceTransactionStatus ["a"] .uploaded
        (updateAttendanceTransactionStatus ["a"] .uploaded [txSampleA]).1).2.1 ≠ 0 := by
  decide

/-- Claim C1 (amended): calling `updateAttendanceTransactionStatus` twice
with the same ids and status leaves the queue in the state reached after
the first call, and the second call reports the same `updatedCount` as the
first (the number of stored transactions whose id is in the id list) — not
necessarily 0. -/
theorem updateStatus_idempotent_state (ids : List String) (s : UploadStatus)
    (q : List AttendanceTransaction) :
    (updateAttendanceTransactionStatus ids s
        (updateAttendanceTransactionStatus ids s q).1).1 =
      (updateAttendanceTransactionStatus ids s q).1 ∧
    (updateAttendanceTransactionStatus ids s
        (updateAttendanceTransactionStatus ids s q).1).2.1 =
      (updateAttendanceTransactionStatus ids s q).2.1 := by
  unfold updateAttendanceTransactionStatus
  by_cases hids : ids = []
  · simp [hids]
  · simp only [if_neg hids]
    by_cases hc : 0 < (q.filter fun t => t.id ∈ ids).length
    · rw [if_pos hc]
      rw [filter_applyStatus_length, if_pos hc]
      exact ⟨map_applyStatus_idem ids s q, rfl⟩
    · rw [if_neg hc]
      rw [if_neg hc]
      exact ⟨rfl, rfl⟩

/-- Claim C9 counterexample: an `updateAttendanceTransactionStatus` call
whose id set matches no stored transaction completes without dispatching
the `attendanceTransactionsUpdated` event (part_008 lines 194-200 dispatch
only when `updatedCount > 0`). -/
theorem updateStatus_no_match_no_event_ce :
    (updateAttendanceTransactionStatus ["zzz"] .uploaded [txSampleA]).2.2 = false := by
  decide

/-- Claim C9 (amended): `addAttendanceTransaction` and
`clearAttendanceTransactions` always dispatch the change notification;
`updateAttendanceTransactionStatus` dispatches it exactly when the id list
is nonempty and at least one stored transaction matches it. -/
theorem queue_mutations_emit_events (tx : AttendanceTransaction)
    (q : List AttendanceTransaction) (ids : List String) (s : UploadStatus) :
    (addAttendanceTransaction tx q).2 = true ∧
    (clearAttendanceTransactions q).2 = true ∧
    ((updateAttendanceTransactionStatus ids s q).2.2 = true ↔
      ids ≠ [] ∧ ∃ t ∈ q, t.id ∈ ids) := by
  refine ⟨rfl, rfl, ?_⟩
  unfold updateAttendanceTransactionStatus
  by_cases hids : ids = []
  · simp [hids]
  · simp only [if_neg hids]
    by_cases hc : 0 < (q.filter fun t => t.id ∈ ids).length
    · rw [if_pos hc]
      simp only [true_iff]
      refine ⟨hids, ?_⟩
      have hne : (q.filter fun t => t.id ∈ ids) ≠ [] := List.length_pos.mp hc
      rcases List.exists_mem_of_ne_nil _ hne with ⟨t, ht⟩
      rcases List.mem_filter.mp ht with ⟨htq, htid⟩
      exact ⟨t, htq, by simpa using htid⟩
    · rw [if_neg hc]
      simp only [Bool.false_eq_true, false_iff, not_and]
      intro _
      rintro ⟨t, htq, htid⟩
      exact hc (List.length_pos.mpr (List.ne_nil_of_mem
        (List.mem_filter.mpr ⟨htq, by simpa using htid⟩)))

/-- Claim C5: with an incoming `Cookie` header present
(`session_id=abc123`), the outbound `fetch` built by
src/src/app/api/uhh-proxy/route.ts carries no `Cookie` header at all — the
incoming cookies are dropped — while the sibling handler in
src/unnamed/part_004 forwards them, as the caller's comment in page.tsx
line 453 ("the proxy MUST be configured to forward the session_id cookie")
requires. -/
theorem relay_cookie_not_forwarded :
    ((proxyOutboundRequest "http://odoo.example/web/session/authenticate"
        (some "session_id=abc123")).headers.find? fun p => p.1 = "Cookie") = none ∧
    ((proxyOutboundRequestV2 "http://odoo.example/web/session/authenticate"
        (some "session_id=abc123")).headers.find? fun p => p.1 = "Cookie") =
      some ("Cookie", "session_id=abc123") := by
  decide

theorem strStartsWith_ne_empty (t : String) (c : Char) (cs : List Char)
    (h : t.data = c :: cs) (s : String) (hs : strStartsWith s t = true) :
    s ≠ "" := by
  intro hempty
  subst hempty
  unfold strStartsWith at hs
  rw [h] at hs
  simp [List.isPrefixOf] at hs

/-- Claim C8: when the upstream content type is not JSON, the relay returns
the structured `nonJsonError` carrying the upstream HTTP status, a snippet
of the raw body truncated to at most 500 characters, and the captured
response headers; the result does not depend on what JSON parsing of the
body would have produced (`parsedBody`), i.e. the body is not parsed as
JSON. -/
theorem relay_non_json_structured_error (targetUrl : String)
    (u : UpstreamResponse)
    (hurl : strStartsWith targetUrl "http://" = true ∨
      strStartsWith targetUrl "https://" = true)
    (hct : contentTypeIsJson u.contentType = false) :
    relayPOST targetUrl true (some u) =
      .nonJsonError u.status
        ("Odoo server responded with non-JSON content. Status: " ++
          toString u.status ++ " " ++ u.statusText ++ ".")
        (u.bodyText.data.take 500).asString u.headers ∧
    ((u.bodyText.data.take 500).asString).length ≤ 500 ∧
    (∃ rest, u.bodyText.data = u.bodyText.data.take 500 ++ rest) ∧
    (∀ pb, relayPOST targetUrl true (some { u with parsedBody := pb }) =
      relayPOST targetUrl true (some u)) := by
  have hne : targetUrl ≠ "" := by
    rcases hurl with h | h
    · exact strStartsWith_ne_empty "http://" 'h' "ttp://".data rfl targetUrl h
    · exact strStartsWith_ne_empty "https://" 'h' "ttps://".data rfl targetUrl h
  have hvalid :
      (!(strStartsWith targetUrl "http://") && !(strStartsWith targetUrl "https://")) = false := by
    rcases hurl with h | h <;> simp [h]
  have key : ∀ v : UpstreamResponse, contentTypeIsJson v.contentType = false →
      relayPOST targetUrl true (some v) =
        .nonJsonError v.status
          ("Odoo server responded with non-JSON content. Status: " ++
            toString v.status ++ " " ++ v.statusText ++ ".")
          (v.bodyText.data.take 500).asString v.headers := by
    intro v hv
    unfold relayPOST
    rw [if_neg (by simp [hne]), if_neg (by simp [hvalid])]
    simp [hv]
  refine ⟨key u hct, ?_,
    ⟨u.bodyText.data.drop 500, (List.take_append_drop _ _).symm⟩, ?_⟩
  · show (u.bodyText.data.take 500).length ≤ 500
    exact List.length_take_le _ _
  · intro pb
    rw [key { u with parsedBody := pb } hct, key u hct]

/-- Witness for claim C8 at a concrete upstream 502 HTML response. -/
theorem relay_non_json_structured_error_witness :
    relayPOST "http://odoo.example" true
      (some { status := 502, statusText := "Bad Gateway",
              contentType := some "text/html", bodyText := "<html>oops</html>",
              parsedBody := none, headers := [("server", "nginx")] }) =
      .nonJsonError 502
        "Odoo server responded with non-JSON content. Status: 502 Bad Gateway."
        "<html>oops</html>" [("server", "nginx")] := by
  have h := relay_non_json_structured_error "http://odoo.example"
    { status := 502, statusText := "Bad Gateway", contentType := some "text/html",
      bodyText := "<html>oops</html>", parsedBody := none,
      headers := [("server", "nginx")] } (Or.inl (by decide)) (by decide)
  exact h.1.trans (by decide)

theorem extractSessionIdFromCookies_no_false (l : List String) (t : String)
    (h : extractSessionIdFromCookies l = some t) : t ≠ "false" ∧ t ≠ "" := by
  induction l with
  | nil => simp [extractSessionIdFromCookies] at h
  | cons s rest ih =>
      unfold extractSessionIdFromCookies at h
      split at h
      · split at h
        · rename_i hv
          cases h
          exact hv
        · exact ih h
      · exact ih h

theorem sessionIdFromHeader_no_false (headers : HeaderMap) (t : String)
    (h : sessionIdFromHeader headers = some t) : t ≠ "false" ∧ t ≠ "" := by
  simp only [sessionIdFromHeader] at h
  split at h
  · split at h
    · exact extractSessionIdFromCookies_no_false _ _ h
    · exact extractSessionIdFromCookies_no_false _ _ h
    · exact absurd h (by simp)
  · exact absurd h (by simp)

/-- Claim C3: `testUhhConnection` extracts the session token by first
parsing the Set-Cookie header (single string or array) for a `session_id`
pair, never accepting the literal value "false" or the empty string, and
consults the response body's `result.session_id` field only when no valid
token was found in the headers. -/
theorem auth_token_extraction_priority :
    (∀ (headers : HeaderMap) (t : String),
        sessionIdFromHeader headers = some t → t ≠ "false" ∧ t ≠ "") ∧
    (∀ (body : AuthResponseBody) (t : String), body.error = none →
        sessionIdFromHeader (body.debug_headers.getD []) = some t →
        testUhhConnection (.resp true body) =
          (.successViaHeader t, ["uhh_session_id", "uhh_user_details"])) ∧
    (∀ (body : AuthResponseBody) (s : String), body.error = none →
        sessionIdFromHeader (body.debug_headers.getD []) = none →
        body.result.bind (fun r => r.session_id) = some s → s ≠ "" →
        testUhhConnection (.resp true body) =
          (.successViaBody s, ["uhh_session_id", "uhh_user_details"])) := by
  refine ⟨sessionIdFromHeader_no_false, ?_, ?_⟩
  · intro body t herr hhdr
    simp [testUhhConnection, herr, hhdr]
  · intro body s herr hhdr hbind hs
    rcases hb : body.result with _ | r
    · rw [hb] at hbind; simp at hbind
    · rw [hb] at hbind
      simp only [Option.some_bind] at hbind
      simp [testUhhConnection, herr, hhdr, hb, hbind, hs]

/-- Witness for claim C3: a header token wins over a body token, and the
body token is used when the header has none. -/
theorem auth_token_extraction_priority_witness :
    testUhhConnection (.resp true
      { debug_headers := some [("set-cookie", .str "session_id=tok99; Path=/")],
        error := none, result := some { session_id := some "bodyTok" } }) =
      (.successViaHeader "tok99", ["uhh_session_id", "uhh_user_details"]) ∧
    testUhhConnection (.resp true
      { debug_headers := some [], error := none,
        result := some { session_id := some "bodyTok" } }) =
      (.successViaBody "bodyTok", ["uhh_session_id", "uhh_user_details"]) := by
  constructor
  · exact auth_token_extraction_priority.2.1 _ "tok99" rfl (by decide)
  · exact auth_token_extraction_priority.2.2 _ "bodyTok" rfl (by decide)
      (by decide) (by decide)

/-- Claim C4: a response with no JSON-RPC error object and no session token
in either the Set-Cookie header or the response body makes
`testUhhConnection` return the distinct missing-session-token failure — not
a success and not a credential rejection — and persist nothing. -/
theorem auth_missing_token_distinct (body : AuthResponseBody)
    (herr : body.error = none)
    (hhdr : sessionIdFromHeader (body.debug_headers.getD []) = none)
    (hbody : body.result.bind (fun r => r.session_id) = none ∨
      body.result.bind (fun r => r.session_id) = some "") :
    testUhhConnection (.resp true body) = (.missingSessionToken, []) ∧
    TestOutcome.missingSessionToken ≠ .rejected ∧
    (∀ t, TestOutcome.missingSessionToken ≠ .successViaHeader t) ∧
    (∀ t, TestOutcome.missingSessionToken ≠ .successViaBody t) := by
  refine ⟨?_, fun h => TestOutcome.noConfusion h,
    fun t h => TestOutcome.noConfusion h, fun t h => TestOutcome.noConfusion h⟩
  rcases hb : body.result with _ | r
  · simp [testUhhConnection, herr, hhdr, hb]
  · rcases hs : r.session_id with _ | s
    · simp [testUhhConnection, herr, hhdr, hb, hs]
    · have hse : s = "" := by
        rcases hbody with hx | hx
        · rw [hb] at hx; simp [hs] at hx
        · rw [hb] at hx; simp [hs] at hx; exact hx
      subst hse
      simp [testUhhConnection, herr, hhdr, hb, hs]

/-- Witness for claim C4: an ok response with empty headers, no error and a
result without `session_id` yields the missing-token outcome and persists
nothing. -/
theorem auth_missing_token_distinct_witness :
    testUhhConnection (.resp true
      { debug_headers := some [], error := none,
        result := some { session_id := none } }) =
      (.missingSessionToken, []) :=
  (auth_missing_token_distinct
    { debug_headers := some [], error := none, result := some { session_id := none } }
    rfl (by decide) (Or.inl rfl)).1

theorem runPushAttempts_success (bids : List String)
    (q : List AttendanceTransaction) (rs : List AttemptResult)
    (h : rs.any isLogicalSuccess = true) :
    runPushAttempts bids q rs =
      ((updateAttendanceTransactionStatus bids .uploaded q).1, true) := by
  induction rs with
  | nil => simp at h
  | cons r rs ih =>
      unfold runPushAttempts
      by_cases hr : isLogicalSuccess r = true
      · rw [if_pos hr]
      · rw [if_neg (by simp [hr])]
        apply ih
        simpa [hr] using h

theorem runPushAttempts_failure (bids : List String)
    (q : List AttendanceTransaction) (rs : List AttemptResult)
    (h : rs.all (fun r => !isLogicalSuccess r) = true) :
    runPushAttempts bids q rs = (q, false) := by
  induction rs with
  | nil => rfl
  | cons r rs ih =>
      simp only [List.all_cons, Bool.and_eq_true, Bool.not_eq_true'] at h
      unfold runPushAttempts
      rw [if_neg (by simp [h.1])]
      exact ih h.2

theorem newlyUploadedCount_self (q : List AttendanceTransaction) :
    newlyUploadedCount q q = 0 := by
  induction q with
  | nil => rfl
  | cons t q ih =>
      unfold newlyUploadedCount at ih ⊢
      simp only [List.zip_cons_cons, List.filter_cons]
      split
      · rename_i hcond
        exfalso
        rcases of_decide_eq_true hcond with ⟨h1, h2⟩
        rw [h1] at h2
        exact UploadStatus.noConfusion h2
      · exact ih

theorem applyStatus_uploaded_iff (bids : List String)
    (t : AttendanceTransaction) :
    (applyStatus bids .uploaded t).status = .uploaded ↔
      t.id ∈ bids ∨ t.status = .uploaded := by
  unfold applyStatus
  split <;> rename_i hmem <;> simp [hmem]

theorem newlyUploadedCount_map (q : List AttendanceTransaction)
    (f : AttendanceTransaction → AttendanceTransaction) :
    newlyUploadedCount q (q.map f) =
      List.countP
        (fun t => decide (t.status = .not_uploaded ∧ (f t).status = .uploaded)) q := by
  unfold newlyUploadedCount
  rw [zip_self_map, ← List.countP_eq_length_filter, List.countP_map]
  rfl

theorem mem_batchIds_not_uploaded (q : List AttendanceTransaction) (k : Nat)
    (hnodup : (q.map fun t => t.id).Nodup) :
    ∀ t ∈ q, t.id ∈ batchIds q k → t.status = .not_uploaded := by
  intro t ht hid
  have hnusub : List.Sublist (notUploadedTransactions q) q := List.filter_sublist q
  rcases List.mem_map.mp hid with ⟨u, hu, huid⟩
  have hu_nu : u ∈ notUploadedTransactions q := List.take_subset k _ hu
  have hu_q : u ∈ q := hnusub.subset hu_nu
  have hut : u = t := List.inj_on_of_nodup_map hnodup hu_q ht huid
  have hstat := (List.mem_filter.mp hu_nu).2
  rw [hut] at hstat
  exact of_decide_eq_true hstat

theorem batch_ids_matched_count (q : List AttendanceTransaction) (k : Nat)
    (hnodup : (q.map fun t => t.id).Nodup) :
    (q.filter fun t => t.id ∈ batchIds q k).length =
      min k (notUploadedTransactions q).length := by
  have hinj := List.inj_on_of_nodup_map hnodup
  have hnusub : List.Sublist (notUploadedTransactions q) q := List.filter_sublist q
  have hnunodup : ((notUploadedTransactions q).map fun t => t.id).Nodup :=
    (hnusub.map fun t => t.id).nodup hnodup
  have hmatch := mem_batchIds_not_uploaded q k hnodup
  rw [← List.countP_eq_length_filter]
  have step1 : List.countP (fun t => decide (t.id ∈ batchIds q k)) q =
      List.countP (fun t =>
        decide (t.id ∈ batchIds q k) && decide (t.status = .not_uploaded)) q := by
    refine List.countP_congr fun t ht => ?_
    simp only [Bool.and_eq_true, decide_eq_true_eq]
    exact ⟨fun h => ⟨h, hmatch t ht h⟩, fun h => h.1⟩
  rw [step1, ← List.countP_filter]
  have step3 : List.countP (fun t => decide (t.id ∈ batchIds q k))
      (notUploadedTransactions q) = ((notUploadedTransactions q).take k).length := by
    conv_lhs => rw [← List.take_append_drop k (notUploadedTransactions q)]
    rw [List.countP_append]
    have h1 : List.countP (fun t => decide (t.id ∈ batchIds q k))
        ((notUploadedTransactions q).take k) =
        ((notUploadedTransactions q).take k).length :=
      List.countP_eq_length.mpr fun u hu =>
        decide_eq_true
          (show u.id ∈ batchIds q k from List.mem_map.mpr ⟨u, hu, rfl⟩)
    have hmapsplit : ((notUploadedTransactions q).map fun t => t.id) =
        batchIds q k ++ (((notUploadedTransactions q).drop k).map fun t => t.id) := by
      unfold batchIds batchToPush
      rw [← List.map_append, List.take_append_drop]
    have hdisj : List.Disjoint (batchIds q k)
        (((notUploadedTransactions q).drop k).map fun t => t.id) :=
      List.disjoint_of_nodup_append (hmapsplit ▸ hnunodup)
    have h2 : List.countP (fun t => decide (t.id ∈ batchIds q k))
        ((notUploadedTransactions q).drop k) = 0 :=
      List.countP_eq_zero.mpr fun u hu hp =>
        hdisj (of_decide_eq_true hp) (List.mem_map.mpr ⟨u, hu, rfl⟩)
    rw [h1, h2, Nat.add_zero]
  have hfold : List.filter (fun t => decide (t.status = UploadStatus.not_uploaded)) q =
      notUploadedTransactions q := rfl
  rw [hfold, step3, List.length_take]

theorem updateStatus_batch_newly_uploaded (q : List AttendanceTransaction)
    (k : Nat) (hnodup : (q.map fun t => t.id).Nodup) :
    newlyUploadedCount q
        (updateAttendanceTransactionStatus (batchIds q k) .uploaded q).1 =
      min k (notUploadedTransactions q).length := by
  unfold updateAttendanceTransactionStatus
  by_cases hb : batchIds q k = []
  · rw [if_pos hb]
    have h0 : min k (notUploadedTransactions q).length = 0 := by
      rw [← List.length_take]
      have hbp : batchToPush q k = [] := List.map_eq_nil_iff.mp hb
      rw [show (notUploadedTransactions q).take k = batchToPush q k from rfl, hbp]
      rfl
    rw [newlyUploadedCount_self, h0]
  · simp only [if_neg hb]
    by_cases hc : 0 < (q.filter fun t => t.id ∈ batchIds q k).length
    · rw [if_pos hc]
      show newlyUploadedCount q
          (q.map (applyStatus (batchIds q k) UploadStatus.uploaded)) = _
      rw [newlyUploadedCount_map]
      have hcongr : List.countP (fun t => decide (t.status = .not_uploaded ∧
          (applyStatus (batchIds q k) .uploaded t).status = .uploaded)) q =
          List.countP (fun t => decide (t.id ∈ batchIds q k)) q := by
        refine List.countP_congr fun t ht => ?_
        simp only [decide_eq_true_eq]
        rw [applyStatus_uploaded_iff]
        constructor
        · rintro ⟨h1, h2 | h2⟩
          · exact h2
          · rw [h1] at h2; exact UploadStatus.noConfusion h2
        · intro hmem
          exact ⟨mem_batchIds_not_uploaded q k hnodup t ht hmem, Or.inl hmem⟩
      rw [hcongr, List.countP_eq_length_filter,
        batch_ids_matched_count q k hnodup]
    · rw [if_neg hc]
      rw [newlyUploadedCount_self]
      rw [← batch_ids_matched_count q k hnodup]
      exact (Nat.eq_zero_of_not_pos hc).symm

/-- Claim C2: over a queue whose transaction ids are distinct, one push
cycle (active session, no cycle in flight) marks exactly
`min(batchSize, N)` transactions uploaded when the remote acknowledges the
batch (N being the number of `not_uploaded` transactions), and marks 0 when
every attempt fails; the persisted queue after the cycle is exactly the
result of the single `updateStatus(batchIds, "uploaded")` call on logical
success, and is untouched on failure. -/
theorem push_cycle_marks_min_batch (q : List AttendanceTransaction) (k : Nat)
    (responses : List AttemptResult)
    (hnodup : (q.map fun t => t.id).Nodup) :
    ((responses.take MAX_RETRIES).any isLogicalSuccess = true →
      (handleScheduledPushToUHH true false q k responses).queue =
        (updateAttendanceTransactionStatus (batchIds q k) .uploaded q).1 ∧
      newlyUploadedCount q
          (handleScheduledPushToUHH true false q k responses).queue =
        min k (notUploadedTransactions q).length) ∧
    ((responses.take MAX_RETRIES).all (fun r => !isLogicalSuccess r) = true →
      (handleScheduledPushToUHH true false q k responses).queue = q ∧
      newlyUploadedCount q
          (handleScheduledPushToUHH true false q k responses).queue = 0) := by
  constructor
  · intro hsucc
    by_cases hnu : notUploadedTransactions q = []
    · have hq : (handleScheduledPushToUHH true false q k responses).queue = q := by
        simp [handleScheduledPushToUHH, hnu]
      have hbids : batchIds q k = [] := by
        unfold batchIds batchToPush
        rw [hnu]
        simp
      refine ⟨?_, ?_⟩
      · rw [hq, hbids]
        rfl
      · rw [hq, newlyUploadedCount_self, hnu]
        simp
    · have hq : (handleScheduledPushToUHH true false q k responses).queue =
          (runPushAttempts (batchIds q k) q (responses.take MAX_RETRIES)).1 := by
        simp [handleScheduledPushToUHH, hnu]
      rw [hq, runPushAttempts_success _ _ _ hsucc]
      exact ⟨rfl, updateStatus_batch_newly_uploaded q k hnodup⟩
  · intro hfail
    by_cases hnu : notUploadedTransactions q = []
    · have hq : (handleScheduledPushToUHH true false q k responses).queue = q := by
        simp [handleScheduledPushToUHH, hnu]
      exact ⟨hq, by rw [hq, newlyUploadedCount_self]⟩
    · have hq : (handleScheduledPushToUHH true false q k responses).queue =
          (runPushAttempts (batchIds q k) q (responses.take MAX_RETRIES)).1 := by
        simp [handleScheduledPushToUHH, hnu]
      rw [hq, runPushAttempts_failure _ _ _ hfail]
      exact ⟨rfl, newlyUploadedCount_self q⟩

/-- Witness for claim C2 on a two-element queue with one `not_uploaded`
transaction and batch size 1: the acknowledged cycle marks exactly one
record, the failing cycle leaves the queue untouched. -/
theorem push_cycle_marks_min_batch_witness :
    newlyUploadedCount [txSampleA, txSampleB]
      (handleScheduledPushToUHH true false [txSampleA, txSampleB] 1
        [.okBody (some .jsTrue)]).queue = 1 ∧
    (handleScheduledPushToUHH true false [txSampleA, txSampleB] 1
      [.httpError, .clientError]).queue = [txSampleA, txSampleB] := by
  constructor
  · exact (((push_cycle_marks_min_batch [txSampleA, txSampleB] 1
      [.okBody (some .jsTrue)] (by decide)).1 (by decide)).2).trans (by decide)
  · exact ((push_cycle_marks_min_batch [txSampleA, txSampleB] 1
      [.httpError, .clientError] (by decide)).2 (by decide)).1

/-! ### A queue at the retention bound (for the eviction claims) -/

def txUploadedBulk : AttendanceTransaction :=
  { id := "u", employee_id := "EMP010", transaction_type := .checkIn
    transaction_time := 2, source_type := "biometric"
    device_id := "ZK-Device-02", status := .uploaded }

def txOldestPending : AttendanceTransaction :=
  { id := "n", employee_id := "EMP011", transaction_type := .checkOut
    transaction_time := 0, source_type := "biometric"
    device_id := "ZK-Device-02", status := .not_uploaded }

def txNewest : AttendanceTransaction :=
  { id := "w", employee_id := "EMP012", transaction_type := .checkIn
    transaction_time := 3, source_type := "biometric"
    device_id := "ZK-Device-02", status := .not_uploaded }

/-- A full queue: 4999 uploaded records (time 2) above one `not_uploaded`
record (time 0), already sorted newest-first. -/
def bigQueue : List AttendanceTransaction :=
  List.replicate 4999 txUploadedBulk ++ [txOldestPending]

theorem addAttendanceTransaction_fst (t : AttendanceTransaction)
    (q : List AttendanceTransaction) :
    (addAttendanceTransaction t q).1 =
      (sortByTimeDesc (t :: q)).take MAX_TRANSACTIONS_IN_STORAGE := rfl

theorem bigQueue_cons_split :
    txNewest :: bigQueue =
      (txNewest :: List.replicate 4999 txUploadedBulk) ++ [txOldestPending] := by
  rw [List.cons_append]
  rfl

theorem txNewest_replicate_length :
    (txNewest :: List.replicate 4999 txUploadedBulk).length =
      MAX_TRANSACTIONS_IN_STORAGE := by
  rw [List.length_cons, List.length_replicate]
  rfl

theorem sorted_bigQueue_cons : (txNewest :: bigQueue).Sorted newerEq := by
  unfold bigQueue
  rw [List.sorted_cons]
  constructor
  · intro b hb
    rcases List.mem_append.mp hb with h | h
    · rw [List.eq_of_mem_replicate h]
      exact (by decide : newerEq txNewest txUploadedBulk)
    · rw [List.mem_singleton.mp h]
      exact (by decide : newerEq txNewest txOldestPending)
  · refine List.pairwise_append.mpr ⟨?_, List.pairwise_singleton _ _, ?_⟩
    · exact List.pairwise_replicate.mpr
        (Or.inr (by decide : newerEq txUploadedBulk txUploadedBulk))
    · intro a ha b hb
      rw [List.eq_of_mem_replicate ha, List.mem_singleton.mp hb]
      exact (by decide : newerEq txUploadedBulk txOldestPending)

theorem addAttendanceTransaction_bigQueue :
    (addAttendanceTransaction txNewest bigQueue).1 =
      txNewest :: List.replicate 4999 txUploadedBulk := by
  rw [addAttendanceTransaction_fst]
  unfold sortByTimeDesc
  rw [List.Sorted.insertionSort_eq sorted_bigQueue_cons, bigQueue_cons_split]
  exact List.take_left' txNewest_replicate_length

/-- Claim C6 counterexample: on a queue already at the bound whose oldest
record is `not_uploaded` and whose other 4999 records are `uploaded`,
enqueueing a new transaction evicts the `not_uploaded` record while every
`uploaded` record is retained — eviction is purely by age and does not
prefer already-uploaded records. -/
theorem eviction_ignores_status_ce :
    txOldestPending ∈ bigQueue ∧
    txOldestPending.status = .not_uploaded ∧
    txUploadedBulk.status = .uploaded ∧
    txUploadedBulk ∈ (addAttendanceTransaction txNewest bigQueue).1 ∧
    txOldestPending ∉ (addAttendanceTransaction txNewest bigQueue).1 := by
  refine ⟨?_, rfl, rfl, ?_, ?_⟩
  · exact List.mem_append.mpr (Or.inr (List.mem_singleton.mpr rfl))
  · rw [addAttendanceTransaction_bigQueue]
    exact List.mem_cons_of_mem _ (List.mem_replicate.mpr ⟨by decide, rfl⟩)
  · rw [addAttendanceTransaction_bigQueue]
    intro hmem
    rcases List.mem_cons.mp hmem with h | h
    · exact absurd h (by decide)
    · exact absurd (List.eq_of_mem_replicate h) (by decide)

/-- Claim C6 (amended): the queue is truncated to the maximum retained size
(5000) on enqueue; the retained records plus the evicted tail are a
permutation of the new record and the old queue; and eviction is purely by
timestamp order — every evicted transaction's timestamp is no newer than
that of every retained one — regardless of uploadStatus. -/
theorem enqueue_truncates_oldest_first (newTx : AttendanceTransaction)
    (q : List AttendanceTransaction) :
    (addAttendanceTransaction newTx q).1.length ≤ MAX_TRANSACTIONS_IN_STORAGE ∧
    ((addAttendanceTransaction newTx q).1 ++
        (sortByTimeDesc (newTx :: q)).drop MAX_TRANSACTIONS_IN_STORAGE).Perm
      (newTx :: q) ∧
    (∀ d ∈ (sortByTimeDesc (newTx :: q)).drop MAX_TRANSACTIONS_IN_STORAGE,
      ∀ r ∈ (addAttendanceTransaction newTx q).1,
        d.transaction_time ≤ r.transaction_time) := by
  rw [addAttendanceTransaction_fst]
  refine ⟨List.length_take_le _ _, ?_, ?_⟩
  · rw [List.take_append_drop]
    exact List.perm_insertionSort newerEq (newTx :: q)
  · intro d hd r hr
    have hsorted : (sortByTimeDesc (newTx :: q)).Pairwise newerEq :=
      List.sorted_insertionSort newerEq (newTx :: q)
    have hsplit : ((sortByTimeDesc (newTx :: q)).take MAX_TRANSACTIONS_IN_STORAGE ++
        (sortByTimeDesc (newTx :: q)).drop MAX_TRANSACTIONS_IN_STORAGE).Pairwise
          newerEq := by
      rw [List.take_append_drop]
      exact hsorted
    exact (List.pairwise_append.mp hsplit).2.2 r hr d hd

/-- Witness for claim C6 (amended) on the full queue: the evicted oldest
record's timestamp is no newer than a retained one's, and the stored list
respects the bound. -/
theorem enqueue_truncates_oldest_first_witness :
    txOldestPending.transaction_time ≤ txUploadedBulk.transaction_time ∧
    (addAttendanceTransaction txNewest bigQueue).1.length ≤
      MAX_TRANSACTIONS_IN_STORAGE := by
  have hdrop : (sortByTimeDesc (txNewest :: bigQueue)).drop
      MAX_TRANSACTIONS_IN_STORAGE = [txOldestPending] := by
    unfold sortByTimeDesc
    rw [List.Sorted.insertionSort_eq sorted_bigQueue_cons, bigQueue_cons_split]
    exact List.drop_left' txNewest_replicate_length
  refine ⟨?_, (enqueue_truncates_oldest_first txNewest bigQueue).1⟩
  refine (enqueue_truncates_oldest_first txNewest bigQueue).2.2 txOldestPending
    ?_ txUploadedBulk ?_
  · rw [hdrop]
    exact List.mem_singleton.mpr rfl
  · rw [addAttendanceTransaction_bigQueue]
    exact List.mem_cons_of_mem _ (List.mem_replicate.mpr ⟨by decide, rfl⟩)

/-- Witness for claim C1 (amended) at a concrete queue. -/
theorem updateStatus_idempotent_state_witness :
    (updateAttendanceTransactionStatus ["a"] .uploaded
        (updateAttendanceTransactionStatus ["a"] .uploaded
          [txSampleA, txSampleB]).1).1 =
      (updateAttendanceTransactionStatus ["a"] .uploaded [txSampleA, txSampleB]).1 :=
  (updateStatus_idempotent_state ["a"] .uploaded [txSampleA, txSampleB]).1

/-- Witness for claim C7 at a concrete queue. -/
theorem push_already_running_guard_witness :
    handleScheduledPushToUHH true true [txSampleA] 1 [.okBody (some .jsTrue)] =
      { queue := [txSampleA], outcome := .alreadyRunning, submitted := [],
        isPushingAfter := true } :=
  push_already_running_guard [txSampleA] 1 [.okBody (some .jsTrue)]

/-- Witness for claim C9 (amended) at concrete queues. -/
theorem queue_mutations_emit_events_witness :
    (addAttendanceTransaction txSampleB [txSampleA]).2 = true ∧
    (updateAttendanceTransactionStatus ["a"] .uploaded [txSampleA]).2.2 = true := by
  refine ⟨(queue_mutations_emit_events txSampleB [txSampleA] ["a"] .uploaded).1, ?_⟩
  exact (queue_mutations_emit_events txSampleB [txSampleA] ["a"] .uploaded).2.2.mpr
    ⟨by decide, txSampleA, by decide, by decide⟩

/-- Witness for claim C10 at a concrete queue. -/
theorem updateStatus_frame_witness :
    (updateAttendanceTransactionStatus ["a"] .uploaded
        [txSampleA, txSampleB]).1.length =
      ([txSampleA, txSampleB] : List AttendanceTransaction).length :=
  (updateStatus_frame ["a"] .uploaded [txSampleA, txSampleB]).1
